import Mathlib

/-!
Verification development for the OMR (optical mark recognition) sheet
generator and scanner service.

The development shallowly embeds:
* the HTTP layer of `main.py` (parameter clamping and the shape of the
  responses built by the `scan_omr` endpoint),
* the sample answer key built by `init_db.py`,
* the detection-and-evaluation core (preprocessing output, row clustering,
  fill classification, answer resolution and evaluation).  The core's
  implementation files are not part of the sources at hand, so those
  definitions are modelled from the specification, as indicated in their
  doc comments.

Machine integers do not overflow in any of the embedded arithmetic
(question counts, pixel counts), so `Nat`, `Int` and `Rat` are used
directly.
-/

namespace OMR

/-! ### Answer key initialisation (`init_db.py`) -/

/-- The four option letters used by the sample key in `init_db.py`. -/
def answerLetters : List Char := ['A', 'B', 'C', 'D']

/-- `init_db.py` line 9:
`answers = {str(i+1): ['A','B','C','D'][i%4] for i in range(50)}`,
embedded as an association list in insertion order. -/
def answers : List (String × Char) :=
  (List.range 50).map (fun i => (toString (i + 1), answerLetters.getD (i % 4) 'A'))

/-! ### HTTP parameter clamping (`main.py`) -/

/-- `main.py` line 277: `questions = max(1, min(questions, 200))`. -/
def clampQuestions (q : Int) : Int := max 1 (min q 200)

/-- `main.py` line 278: `options = max(2, min(options, 6))`. -/
def clampOptions (o : Int) : Int := max 2 (min o 6)

/-- `main.py` line 279: `columns = max(1, min(columns, 3))`. -/
def clampColumns (c : Int) : Int := max 1 (min c 3)

/-- The argument triple `(questions, options, columns)` that the
`generate-and-download-pdf` endpoint passes to `generate_omr_pdf`
after validating its form inputs (`main.py` lines 277-294). -/
def generate_and_download_pdf_args (questions options columns : Int) :
    Int × Int × Int :=
  (clampQuestions questions, clampOptions options, clampColumns columns)

/-- `main.py` line 344: `expected_options = max(2, min(expected_options, 6))`;
this clamped value is what `scan_omr` passes to `detect_omr_answers`. -/
def scan_omr_detector_options (e : Int) : Int := max 2 (min e 6)

/-! ### The `scan_omr` endpoint's response (`main.py` lines 342-401) -/

/-- The raw dictionary returned by `detect_omr_answers`; `scan_omr` reads it
only through `.get` with defaults, so every field is optional here. -/
structure RawResult where
  status : Option String
  detected_answers : Option (List (Nat × String))
  total_questions : Option Nat
  error : Option String
deriving DecidableEq

/-- How one invocation of the endpoint body ends: the upload was a PDF
and importing pdf2image failed, so the body returned early
(`main.py` lines 371-376); or `detect_omr_answers` returned a
dictionary; or some statement of the `try` block raised an exception
with message `msg`. -/
inductive ScanOutcome where
  | ok (result : RawResult)
  | pdfImportError
  | exn (msg : String)

/-- The JSON body the `scan_omr` endpoint sends back, with its HTTP
status code; fields that a given branch does not emit are `none` (the
pdf2image early return emits no status field at all). -/
structure ScanResponse where
  statusCode : Nat
  status : Option String
  detected_answers : Option (List (Nat × String))
  total_questions : Option Nat
  detected_bubbles : Option Nat
  raw_result : Option RawResult
  error : Option String
  message : Option String
deriving DecidableEq

/-- The response construction of `scan_omr` (`main.py` lines 361-401):
when the detector returns, the endpoint answers 200 with
`status: "success"`, the detector fields read with defaults, and the raw
detector dictionary under `raw_result`; when pdf2image cannot be
imported for a PDF upload it answers 400 with an error and message but
no status field (lines 371-376); on an exception it answers 400 with
`status: "error"`, the exception text and a fixed human-readable
message (lines 392-401). -/
def scan_omr_response : ScanOutcome → ScanResponse
  | .ok r =>
      { statusCode := 200
        status := some "success"
        detected_answers := some (r.detected_answers.getD [])
        total_questions := some (r.total_questions.getD 0)
        detected_bubbles := some (r.detected_answers.getD []).length
        raw_result := some r
        error := none
        message := none }
  | .pdfImportError =>
      { statusCode := 400
        status := none
        detected_answers := none
        total_questions := none
        detected_bubbles := none
        raw_result := none
        error := some "PDF processing not available"
        message := some "Please upload an image (PNG/JPEG) instead" }
  | .exn m =>
      { statusCode := 400
        status := some "error"
        detected_answers := none
        total_questions := none
        detected_bubbles := none
        raw_result := none
        error := some m
        message := some "Failed to scan OMR sheet" }

/-- A detector outcome that reports failure without raising, as the
specification's `DetectionResult` allows (`status: "error"`). -/
def failedDetect : RawResult :=
  { status := some "error"
    detected_answers := none
    total_questions := none
    error := some "Could not load image" }

/-! ### Theorems for the claims decided by `main.py` and `init_db.py` -/

/-- C1 counterexample: two concrete invocations refute the claim.  When
the detector returns a result whose own status field is "error" without
raising, `scan_omr` still answers with `status = "success"` and
propagates the raw internal detector structure verbatim under the
`raw_result` key; and the pdf2image import failure is a user-visible
failure answered with a 400 body that carries no status field at all. -/
theorem scan_omr_success_despite_error :
    failedDetect.status = some "error" ∧
    (scan_omr_response (.ok failedDetect)).status = some "success" ∧
    (scan_omr_response (.ok failedDetect)).raw_result = some failedDetect ∧
    (scan_omr_response .pdfImportError).status = none ∧
    (scan_omr_response .pdfImportError).statusCode = 400 ∧
    (scan_omr_response .pdfImportError).error =
      some "PDF processing not available" :=
  ⟨rfl, rfl, rfl, rfl, rfl, rfl⟩

/-- C1 amended: an exception caught by the endpoint's try/except is
surfaced as a 400 result with `status = "error"`, the exception text and
a fixed human-readable message; a PDF upload with pdf2image missing is
answered early with a 400 result carrying an error and a message but no
status field; and every invocation in which the detector returns is
answered 200 with `status = "success"` regardless of the detector's own
status field, with the raw detector result included under the
`raw_result` key. -/
theorem scan_omr_response_shape (r : RawResult) (m : String) :
    (scan_omr_response (.ok r)).statusCode = 200 ∧
    (scan_omr_response (.ok r)).status = some "success" ∧
    (scan_omr_response (.ok r)).raw_result = some r ∧
    (scan_omr_response .pdfImportError).statusCode = 400 ∧
    (scan_omr_response .pdfImportError).status = none ∧
    (scan_omr_response .pdfImportError).error =
      some "PDF processing not available" ∧
    (scan_omr_response .pdfImportError).message =
      some "Please upload an image (PNG/JPEG) instead" ∧
    (scan_omr_response (.exn m)).statusCode = 400 ∧
    (scan_omr_response (.exn m)).status = some "error" ∧
    (scan_omr_response (.exn m)).error = some m ∧
    (scan_omr_response (.exn m)).message = some "Failed to scan OMR sheet" :=
  ⟨rfl, rfl, rfl, rfl, rfl, rfl, rfl, rfl, rfl, rfl, rfl⟩

/-- C9: both endpoints clamp their numeric parameters into fixed bounds
before use: `questions` into [1, 200], `options` into [2, 6], `columns`
into [1, 3], and `expected_options` into [2, 6]; the clamped triple is by
construction exactly what reaches `generate_omr_pdf`, and the clamped
options value exactly what reaches `detect_omr_answers`. -/
theorem endpoint_clamping (questions options columns expected : Int) :
    1 ≤ (generate_and_download_pdf_args questions options columns).1 ∧
    (generate_and_download_pdf_args questions options columns).1 ≤ 200 ∧
    2 ≤ (generate_and_download_pdf_args questions options columns).2.1 ∧
    (generate_and_download_pdf_args questions options columns).2.1 ≤ 6 ∧
    1 ≤ (generate_and_download_pdf_args questions options columns).2.2 ∧
    (generate_and_download_pdf_args questions options columns).2.2 ≤ 3 ∧
    2 ≤ scan_omr_detector_options expected ∧
    scan_omr_detector_options expected ≤ 6 := by
  unfold generate_and_download_pdf_args scan_omr_detector_options
    clampQuestions clampOptions clampColumns
  dsimp only
  refine ⟨?_, ?_, ?_, ?_, ?_, ?_, ?_, ?_⟩ <;> omega

/-- C10: the initial database row for exam id 1 carries exactly 50 answer
entries, keyed by the strings "1" through "50" in order, where key `k`
maps to the letter at position `(k-1) mod 4` of A, B, C, D, and every
stored value is a single option letter. -/
theorem init_db_answer_key :
    answers.length = 50 ∧
    answers.map Prod.fst =
      ["1", "2", "3", "4", "5", "6", "7", "8", "9", "10",
       "11", "12", "13", "14", "15", "16", "17", "18", "19", "20",
       "21", "22", "23", "24", "25", "26", "27", "28", "29", "30",
       "31", "32", "33", "34", "35", "36", "37", "38", "39", "40",
       "41", "42", "43", "44", "45", "46", "47", "48", "49", "50"] ∧
    (∀ k, k < 50 →
      answers.lookup (toString (k + 1)) =
        some (answerLetters.getD (k % 4) 'A')) ∧
    (∀ p ∈ answers, p.2 ∈ answerLetters) := by
  decide

/-- C10 witness: key "3" (so `k = 2`) looks up to the letter at position
`2 mod 4` of A, B, C, D, namely 'C'. -/
theorem init_db_answer_key_witness :
    answers.lookup (toString (2 + 1)) =
      some (answerLetters.getD (2 % 4) 'A') :=
  init_db_answer_key.2.2.1 2 (by decide)

/-! ### The detection core's data model

The implementation files of the detection-and-evaluation core
(`omr/detector_optimized.py`, `omr/detector_enhanced.py`) are not among the
sources at hand; only their callers are.  The definitions below are
therefore modelled from the specification, as their doc comments state. -/

/-- A resolved per-question answer: a single option letter, "unmarked"
(no bubble filled above threshold), or "ambiguous" (several filled). -/
inductive Answer where
  | letter (c : Char)
  | unmarked
  | ambiguous
deriving DecidableEq

/-- Classification of one keyed question by the evaluator. -/
inductive Outcome where
  | correct
  | wrong
  | unmarked
deriving DecidableEq

/-- Modelled from the spec: the Evaluator's per-question rule (section 4.6)
of the missing `evaluate` implementation.  For a question number `q` with
keyed letter `k`: absent from the detected answers or resolved "unmarked"
is unmarked; "ambiguous" or a letter different from `k` is wrong; the
keyed letter itself is correct. -/
def classifyAgainstKey (det : Nat → Option Answer) (q : Nat) (k : Char) :
    Outcome :=
  match det q with
  | none => .unmarked
  | some .unmarked => .unmarked
  | some .ambiguous => .wrong
  | some (.letter c) => if c = k then .correct else .wrong

/-- Round half to even to the nearest integer, as Python's built-in
`round` does. -/
def roundHalfEven (x : ℚ) : ℤ :=
  if x - (Rat.floor x : ℚ) < 1 / 2 then Rat.floor x
  else if 1 / 2 < x - (Rat.floor x : ℚ) then Rat.floor x + 1
  else if Rat.floor x % 2 = 0 then Rat.floor x else Rat.floor x + 1

/-- Python's `round(x, 2)`: round to two decimal places, half to even. -/
def round2 (x : ℚ) : ℚ := (roundHalfEven (x * 100) : ℚ) / 100

/-- The evaluation record: score statistics plus the classified question
number lists. -/
structure EvaluationResult where
  score : Nat
  total : Nat
  percentage : ℚ
  correct : List Nat
  wrong : List Nat
  unmarked : List Nat
deriving DecidableEq

/-- The evaluator's only fatal error. -/
inductive EvalError where
  | emptyAnswerKey
deriving DecidableEq

/-- The keyed questions the evaluator classifies as `oc`. -/
def evalClass (key : List (Nat × Char)) (det : Nat → Option Answer)
    (oc : Outcome) : List (Nat × Char) :=
  key.filter fun p => classifyAgainstKey det p.1 p.2 = oc

/-- Modelled from the spec: the Evaluator (section 4.6) of the missing
`evaluate` implementation.  `total` is the number of keys; an empty key is
the reportable `EmptyAnswerKeyError`; otherwise every keyed question is
classified, `score` counts the correct ones and `percentage` is
`round(score / total * 100, 2)`. -/
def evaluate (key : List (Nat × Char)) (det : Nat → Option Answer) :
    Except EvalError EvaluationResult :=
  if key.length = 0 then .error .emptyAnswerKey
  else
    .ok { score := (evalClass key det .correct).length
          total := key.length
          percentage :=
            round2 (((evalClass key det .correct).length : ℚ) /
              (key.length : ℚ) * 100)
          correct := (evalClass key det .correct).map Prod.fst
          wrong := (evalClass key det .wrong).map Prod.fst
          unmarked := (evalClass key det .unmarked).map Prod.fst }

/-- A keyed question is classified correct exactly when the detected
answer is the keyed letter. -/
theorem classifyAgainstKey_eq_correct (det : Nat → Option Answer)
    (q : Nat) (k : Char) :
    classifyAgainstKey det q k = Outcome.correct ↔
      det q = some (Answer.letter k) := by
  unfold classifyAgainstKey
  cases h : det q with
  | none => simp
  | some a =>
    cases a with
    | letter c => by_cases hc : c = k <;> simp [hc]
    | unmarked => simp
    | ambiguous => simp

/-- The classification of a question depends on the detected answers only
at that question number. -/
theorem classifyAgainstKey_congr {det det' : Nat → Option Answer}
    (q : Nat) (k : Char) (h : det q = det' q) :
    classifyAgainstKey det q k = classifyAgainstKey det' q k := by
  unfold classifyAgainstKey
  rw [h]

/-- Splitting a list by a three-valued classification and concatenating
the parts permutes the list. -/
theorem filter_outcome_perm {α : Type} (f : α → Outcome) (l : List α) :
    ((l.filter fun a => f a = Outcome.unmarked) ++
      ((l.filter fun a => f a = Outcome.correct) ++
        (l.filter fun a => f a = Outcome.wrong))).Perm l := by
  induction l with
  | nil => simp
  | cons a t ih =>
    cases h : f a with
    | unmarked =>
      simp [List.filter_cons, h]
      exact ih
    | correct =>
      simp [List.filter_cons, h]
      exact List.perm_middle.trans (ih.cons a)
    | wrong =>
      simp [List.filter_cons, h]
      exact ((List.Perm.append_left _ List.perm_middle).trans
        (List.perm_middle.trans (ih.cons a)))

/-- The evaluator's class lists depend on the detected answers only at the
keyed question numbers. -/
theorem evalClass_congr (key : List (Nat × Char))
    {det det' : Nat → Option Answer}
    (h : ∀ p ∈ key, det p.1 = det' p.1) (oc : Outcome) :
    evalClass key det oc = evalClass key det' oc :=
  List.filter_congr fun p hp => by
    rw [classifyAgainstKey_congr p.1 p.2 (h p hp)]

/-- C3: every successful evaluation satisfies: `total` is the number of
keys; `score` is the number of keyed questions whose detected answer
equals the keyed letter; `percentage` is `round(score / total * 100, 2)`;
the unmarked, correct and wrong lists together are a permutation of the
key's question numbers; and the result is unchanged by altering detected
answers outside the key (detected questions absent from the key are
ignored). -/
theorem evaluate_consistency (key : List (Nat × Char))
    (det det' : Nat → Option Answer) (r : EvaluationResult)
    (h : evaluate key det = Except.ok r) :
    r.total = key.length ∧
    r.score =
      (key.filter fun p => det p.1 = some (Answer.letter p.2)).length ∧
    r.percentage = round2 ((r.score : ℚ) / (r.total : ℚ) * 100) ∧
    (r.unmarked ++ (r.correct ++ r.wrong)).Perm (key.map Prod.fst) ∧
    ((∀ p ∈ key, det p.1 = det' p.1) →
      evaluate key det' = Except.ok r) := by
  have hne : ¬ key.length = 0 := by
    intro h0
    rw [evaluate, if_pos h0] at h
    exact absurd h (by simp)
  rw [evaluate, if_neg hne] at h
  injection h with h
  subst h
  refine ⟨rfl, ?_, rfl, ?_, ?_⟩
  · have hfe :
        evalClass key det .correct =
          key.filter fun p => det p.1 = some (Answer.letter p.2) :=
      List.filter_congr fun p _ => by
        rw [decide_eq_decide]
        exact classifyAgainstKey_eq_correct det p.1 p.2
    rw [hfe]
  · dsimp only
    rw [← List.map_append, ← List.map_append]
    exact (filter_outcome_perm
      (fun p => classifyAgainstKey det p.1 p.2) key).map Prod.fst
  · intro hagree
    rw [evaluate, if_neg hne,
      evalClass_congr key hagree .correct,
      evalClass_congr key hagree .wrong,
      evalClass_congr key hagree .unmarked]

/-- A concrete two-question key for evaluation witnesses. -/
def key0 : List (Nat × Char) := [(1, 'A'), (2, 'B')]

/-- Concrete detected answers: question 1 marked A, everything else
unmarked. -/
def det0 : Nat → Option Answer :=
  fun q => if q = 1 then some (Answer.letter 'A') else some Answer.unmarked

/-- The evaluation record produced on `key0` and `det0`. -/
def r0 : EvaluationResult :=
  { score := 1, total := 2, percentage := 50,
    correct := [1], wrong := [], unmarked := [2] }

/-- Batteries' executable `Rat.floor` agrees with the floor of the
`FloorRing` structure on `ℚ`. -/
theorem ratFloor_eq_intFloor (a : ℚ) : Rat.floor a = ⌊a⌋ :=
  (Rat.floor_def' a).trans Rat.floor_def.symm

/-- Evaluating `key0` against `det0` produces exactly `r0`. -/
theorem evaluate_key0 : evaluate key0 det0 = Except.ok r0 := by
  rw [evaluate, if_neg (by decide)]
  have hc : evalClass key0 det0 Outcome.correct = [(1, 'A')] := by decide
  have hw : evalClass key0 det0 Outcome.wrong = ([] : List (Nat × Char)) := by
    decide
  have hu : evalClass key0 det0 Outcome.unmarked = [(2, 'B')] := by decide
  rw [hc, hw, hu]
  simp only [round2, roundHalfEven, ratFloor_eq_intFloor]
  norm_num [r0, key0]

/-- C3 witness: the consistency theorem applied to the concrete key
`key0`, detected answers `det0` and result `r0`. -/
theorem evaluate_consistency_witness :
    r0.total = key0.length ∧
    r0.score =
      (key0.filter fun p => det0 p.1 = some (Answer.letter p.2)).length ∧
    r0.percentage = round2 ((r0.score : ℚ) / (r0.total : ℚ) * 100) ∧
    (r0.unmarked ++ (r0.correct ++ r0.wrong)).Perm (key0.map Prod.fst) ∧
    ((∀ p ∈ key0, det0 p.1 = det0 p.1) →
      evaluate key0 det0 = Except.ok r0) :=
  evaluate_consistency key0 det0 det0 r0 evaluate_key0

/-- C4: evaluating against an empty answer key (total = 0) yields the
reportable `EmptyAnswerKeyError` and no partial score. -/
theorem evaluate_empty_key (key : List (Nat × Char))
    (det : Nat → Option Answer) (h : key.length = 0) :
    evaluate key det = Except.error EvalError.emptyAnswerKey := by
  rw [evaluate, if_pos h]

/-- C4 witness: the empty-key theorem applied to the empty key and the
concrete detected answers `det0`. -/
theorem evaluate_empty_key_witness :
    evaluate [] det0 = Except.error EvalError.emptyAnswerKey :=
  evaluate_empty_key [] det0 rfl

/-! ### The detection pipeline (modelled from the spec) -/

/-- A bubble candidate that passed the geometric filters: its centroid and
the binary-mask pixels of its region (`true` is a dark pixel). -/
structure Cand where
  x : ℚ
  y : ℚ
  region : List Bool
deriving DecidableEq

/-- Modelled from the spec: the Fill Classifier's per-bubble fill ratio
(section 4.4) of the missing detector implementation — the percentage of
dark pixels within the bubble's region relative to the region's pixel
count. -/
def fillPercent (c : Cand) : ℚ :=
  100 * ((c.region.count true : ℚ) / (c.region.length : ℚ))

/-- Option letters A, B, C, ... for option index 0, 1, 2, ... -/
def optionLetter (i : Nat) : Char := Char.ofNat (65 + i)

/-- Modelled from the spec: the Fill Classifier's per-row decision
(section 4.4) of the missing detector implementation.  A bubble is a fill
candidate when its ratio reaches the threshold; zero candidates resolve
to "unmarked", exactly one to that bubble's letter, two or more to
"ambiguous". -/
def classifyRow (thr : ℚ) (ratios : List ℚ) : Answer :=
  if ratios.countP (fun r => thr ≤ r) = 0 then .unmarked
  else if ratios.countP (fun r => thr ≤ r) = 1 then
    .letter (optionLetter (ratios.findIdx (fun r => thr ≤ r)))
  else .ambiguous

/-- The running mean y-centroid of the current row. -/
def rowMeanY (row : List Cand) : ℚ :=
  ((row.map Cand.y).sum) / (row.length : ℚ)

/-- Modelled from the spec: the Row Clusterer's greedy sweep
(section 4.3) of the missing detector implementation — scan the y-sorted
candidates, starting a new row whenever the next candidate's y-centroid
differs from the current row's running mean by more than the
threshold. -/
def clusterSweep (thr : ℚ) :
    List Cand → List Cand → List (List Cand) → List (List Cand)
  | [], cur, acc => acc ++ [cur]
  | c :: rest, cur, acc =>
    if thr < |c.y - rowMeanY cur| then clusterSweep thr rest [c] (acc ++ [cur])
    else clusterSweep thr rest (cur ++ [c]) acc

/-- Candidates sorted by y-centroid (stable, as Python's sort). -/
def sortByY (cands : List Cand) : List Cand :=
  List.insertionSort (fun a b => a.y ≤ b.y) cands

/-- A row's candidates sorted by x-centroid, defining option order. -/
def sortByX (row : List Cand) : List Cand :=
  List.insertionSort (fun a b => a.x ≤ b.x) row

/-- Modelled from the spec: the Row Clusterer (section 4.3) of the
missing detector implementation. -/
def clusterRows (thr : ℚ) (cands : List Cand) : List (List Cand) :=
  match sortByY cands with
  | [] => []
  | c :: rest => clusterSweep thr rest [c] []

/-- The structured detection result of the core's `detect` entry point. -/
structure DetectionResult where
  status : String
  total_questions : Nat
  detected_answers : List (Nat × Answer)
  error : Option String
deriving DecidableEq

/-- Modelled from the spec: the detection pipeline after candidate
extraction (sections 4.3 to 4.5) of the missing detector implementation —
cluster the candidates into rows, drop every row whose bubble count
differs from `expectedOptions`, number the surviving rows 1..N in
top-to-bottom order, and classify each row's fill ratios in left-to-right
option order. -/
def detect (expectedOptions : Nat) (fillThreshold rowThreshold : ℚ)
    (cands : List Cand) : DetectionResult :=
  let valid := (clusterRows rowThreshold cands).filter
    fun r => r.length = expectedOptions
  { status := "success"
    total_questions := valid.length
    detected_answers := valid.enum.map fun p =>
      (p.1 + 1, classifyRow fillThreshold ((sortByX p.2).map fillPercent))
    error := none }

/-- Modelled from the spec: a reusable detector instance holds only
immutable configuration (section 3's ownership model); nothing persists
or is shared across calls. -/
structure OMRDetector where
  fill_threshold : ℚ
  row_threshold : ℚ

/-- One call of the detector instance's `detect` method: the result
together with the instance as it stands after the call. -/
def OMRDetector.runDetect (d : OMRDetector) (cands : List Cand)
    (expectedOptions : Nat) : DetectionResult × OMRDetector :=
  (detect expectedOptions d.fill_threshold d.row_threshold cands, d)

/-! ### Helper lemmas for the pipeline theorems -/

/-- A predicate holding at exactly one index is counted exactly once. -/
theorem countP_eq_one_of_unique {α : Type} (p : α → Bool) :
    ∀ (l : List α) (i : Nat) (hi : i < l.length),
      p (l.get ⟨i, hi⟩) = true →
      (∀ j (hj : j < l.length), j ≠ i → p (l.get ⟨j, hj⟩) = false) →
      l.countP p = 1 := by
  intro l
  induction l with
  | nil => intro i hi _ _; simp at hi
  | cons a t ih =>
    intro i hi hhit huniq
    cases i with
    | zero =>
      have hpa : p a = true := hhit
      have ht : t.countP p = 0 := by
        rw [List.countP_eq_zero]
        intro b hb
        obtain ⟨⟨j, hj⟩, rfl⟩ := List.mem_iff_get.mp hb
        have hj' : j + 1 < (a :: t).length := Nat.succ_lt_succ hj
        have := huniq (j + 1) hj' (by omega)
        simp at this
        simp [this]
      rw [List.countP_cons_of_pos _ _ hpa, ht]
    | succ j =>
      have hpa : p a = false := huniq 0 (Nat.succ_pos _) (by omega)
      rw [List.countP_cons_of_neg _ _ (by simp [hpa])]
      have hj : j < t.length := Nat.lt_of_succ_lt_succ hi
      exact ih j hj hhit fun k hk hne =>
        huniq (k + 1) (Nat.succ_lt_succ hk) (by omega)

/-- The greedy sweep's rows, concatenated, restore its input in order:
the accumulated rows, then the current row, then the candidates still to
be scanned. -/
theorem clusterSweep_flatten (thr : ℚ) :
    ∀ (l cur : List Cand) (acc : List (List Cand)),
      (clusterSweep thr l cur acc).flatten = acc.flatten ++ (cur ++ l)
  | [], cur, acc => by simp [clusterSweep]
  | c :: rest, cur, acc => by
    rw [clusterSweep]
    split
    · rw [clusterSweep_flatten thr rest [c] (acc ++ [cur])]
      simp
    · rw [clusterSweep_flatten thr rest (cur ++ [c]) acc]
      simp

/-- Clustering partitions the y-sorted candidate list in order. -/
theorem clusterRows_flatten (thr : ℚ) (cands : List Cand) :
    (clusterRows thr cands).flatten = sortByY cands := by
  unfold clusterRows
  cases h : sortByY cands with
  | nil => simp
  | cons c rest => rw [clusterSweep_flatten]; simp

/-- Enumerating a list and keeping the indices yields the range of its
length. -/
theorem enum_map_fst {α : Type} (l : List α) :
    l.enum.map Prod.fst = List.range l.length := by
  rw [List.enum, List.enumFrom_map_fst, List.range_eq_range']

/-! ### Theorems for the pipeline claims -/

/-- C7: for every configuration and every bubble, the reported fill ratio
lies in the closed interval [0, 100]. -/
theorem fillPercent_bounds (c : Cand) :
    0 ≤ fillPercent c ∧ fillPercent c ≤ 100 := by
  unfold fillPercent
  constructor
  · exact mul_nonneg (by norm_num)
      (div_nonneg (Nat.cast_nonneg _) (Nat.cast_nonneg _))
  · rcases Nat.eq_zero_or_pos c.region.length with h | h
    · rw [h]
      norm_num
    · have hle : ((c.region.count true : ℚ)) ≤ (c.region.length : ℚ) :=
        Nat.cast_le.mpr (List.count_le_length true c.region)
      have hpos : (0 : ℚ) < (c.region.length : ℚ) := by exact_mod_cast h
      have h1 : (c.region.count true : ℚ) / (c.region.length : ℚ) ≤ 1 :=
        (div_le_one hpos).mpr hle
      calc 100 * ((c.region.count true : ℚ) / (c.region.length : ℚ))
          ≤ 100 * 1 := mul_le_mul_of_nonneg_left h1 (by norm_num)
        _ = 100 := by norm_num

/-- C5: the per-row fill decision: zero fill candidates resolve to
"unmarked"; a single fill candidate resolves to that bubble's option
letter; two or more resolve to "ambiguous", never a silent tie-break
toward the highest ratio. -/
theorem classifyRow_policy (thr : ℚ) (ratios : List ℚ) :
    (ratios.countP (fun r => thr ≤ r) = 0 →
      classifyRow thr ratios = Answer.unmarked) ∧
    (∀ i (hi : i < ratios.length), thr ≤ ratios[i] →
      (∀ j (hj : j < ratios.length), j ≠ i → ¬ thr ≤ ratios[j]) →
      classifyRow thr ratios = Answer.letter (optionLetter i)) ∧
    (2 ≤ ratios.countP (fun r => thr ≤ r) →
      classifyRow thr ratios = Answer.ambiguous) := by
  refine ⟨?_, ?_, ?_⟩
  · intro h0
    rw [classifyRow, if_pos h0]
  · intro i hi hhit huniq
    have hcount : ratios.countP (fun r => thr ≤ r) = 1 :=
      countP_eq_one_of_unique _ ratios i hi (decide_eq_true hhit)
        fun j hj hne => decide_eq_false (huniq j hj hne)
    have hidx : ratios.findIdx (fun r => thr ≤ r) = i :=
      (List.findIdx_eq hi).mpr ⟨decide_eq_true hhit,
        fun j hji => decide_eq_false
          (huniq j (Nat.lt_trans hji hi) (Nat.ne_of_lt hji))⟩
    rw [classifyRow, if_neg (by omega), if_pos hcount, hidx]
  · intro h2
    rw [classifyRow, if_neg (by omega), if_neg (by omega)]

/-- C5 witness: the policy applied to concrete rows with one, zero, and
two bubbles at or above a threshold of 40. -/
theorem classifyRow_policy_witness :
    classifyRow 40 [10, 80, 5, 0] = Answer.letter (optionLetter 1) ∧
    classifyRow 40 [10, 20] = Answer.unmarked ∧
    classifyRow 40 [50, 60] = Answer.ambiguous :=
  ⟨(classifyRow_policy 40 [10, 80, 5, 0]).2.1 1 (by norm_num)
      (by norm_num) (by decide),
    (classifyRow_policy 40 [10, 20]).1 (by decide),
    (classifyRow_policy 40 [50, 60]).2.2 (by decide)⟩

/-- C2: a detection in which clustering finds zero rows returns a
success-shaped result with zero questions and an empty answer mapping
rather than an error, so a caller can tell "nothing found" from "could
not process". -/
theorem detect_no_rows (expectedOptions : Nat) (ft rt : ℚ)
    (cands : List Cand) (h : clusterRows rt cands = []) :
    detect expectedOptions ft rt cands =
      { status := "success", total_questions := 0,
        detected_answers := [], error := none } := by
  simp [detect, h]

/-- C2 witness: an image yielding no candidates clusters into zero rows,
and detection on it returns the zero-question success result. -/
theorem detect_no_rows_witness :
    detect 4 40 15 [] =
      { status := "success", total_questions := 0,
        detected_answers := [], error := none } :=
  detect_no_rows 4 40 15 [] rfl

/-- C6: `total_questions` equals the number of clustered rows whose
bubble count equals `expectedOptions` (rows with any other count are
dropped entirely); the surviving questions are numbered sequentially
1..N; and clustering partitions the y-sorted candidates in top-to-bottom
order. -/
theorem detect_row_accounting (expectedOptions : Nat) (ft rt : ℚ)
    (cands : List Cand) :
    (detect expectedOptions ft rt cands).total_questions =
      (clusterRows rt cands).countP (fun r => r.length = expectedOptions) ∧
    (detect expectedOptions ft rt cands).detected_answers.map Prod.fst =
      (List.range
        (detect expectedOptions ft rt cands).total_questions).map (· + 1) ∧
    (clusterRows rt cands).flatten = sortByY cands := by
  refine ⟨?_, ?_, clusterRows_flatten rt cands⟩
  · simp [detect, List.countP_eq_length_filter]
  · simp only [detect, List.map_map]
    rw [show (Prod.fst ∘ fun p : Nat × List Cand =>
        (p.1 + 1, classifyRow ft ((sortByX p.2).map fillPercent))) =
        ((· + 1) ∘ Prod.fst) from rfl]
    rw [← List.map_map, enum_map_fst]

/-- C8: detection is deterministic and the detector instance carries no
mutable state: calling `detect` twice with identical input yields
identical results, and the instance after a call is the instance that
made it. -/
theorem detect_idempotent (d : OMRDetector) (cands : List Cand)
    (expectedOptions : Nat) :
    (d.runDetect cands expectedOptions).1 =
      ((d.runDetect cands expectedOptions).2.runDetect
        cands expectedOptions).1 ∧
    ((d.runDetect cands expectedOptions).2.runDetect
      cands expectedOptions).2 = d :=
  ⟨rfl, rfl⟩

end OMR
